import Mathlib

/-!
Verification of the Neo4j brain-control CLI client
(`neo4j_brain_control.py`).

The development shallowly embeds the script: strings handled by the node
tokenizer are `List Char`; JSON response bodies are a `JVal` inductive;
every `print` statement of the script becomes a constructor of
`OutputLine`, so each operation is a pure function from the HTTP outcome
to the trace of lines it prints; process exit codes are the second
component of `runMain`.
-/

namespace BrainControl

/-! ## Node-token parsing (`__main__`, lines 136-141)

Python splits each `--nodes` token with `node_str.split(':')` and joins
the tail back with `':'.join(name_parts)`.  `pysplit` and `pyjoin` embed
`str.split` / `str.join` for a single-character separator. -/

/-- Python `s.split(c)` for a single-character separator `c`:
splitting the empty string yields `[[]]`, and every occurrence of `c`
starts a new (possibly empty) segment. -/
def pysplit (c : Char) : List Char → List (List Char)
  | [] => [[]]
  | x :: xs =>
    if x = c then [] :: pysplit c xs
    else
      match pysplit c xs with
      | [] => [[x]]
      | y :: ys => (x :: y) :: ys

/-- Python `c.join(parts)` for a single-character separator. -/
def pyjoin (c : Char) : List (List Char) → List Char
  | [] => []
  | [y] => y
  | y :: ys => y ++ c :: pyjoin c ys

/-- Default display name `f"Neuron {node_id}"` used when a token has no
colon. -/
def neuronName (idc : List Char) : List Char :=
  "Neuron ".data ++ idc

/-- Embedding of the token parsing in `__main__` (lines 139-140):
`node_id, *name_parts = node_str.split(':')` followed by
`name = ':'.join(name_parts) if name_parts else f"Neuron {node_id}"`.
The `none` result corresponds to the `ValueError` branch: it would occur
only if `split` returned an empty list. -/
def parseNodeToken (s : List Char) : Option (List Char × List Char) :=
  match pysplit ':' s with
  | [] => none
  | idc :: rest =>
    some (idc, if rest.isEmpty then neuronName idc else pyjoin ':' rest)

/-! ## JSON values and Python dynamic-typing helpers

Response bodies (`response.json()`) are arbitrary JSON values.  The
helpers below embed the Python operations the script applies to them:
attribute access `result.get`, truthiness, `len`, iteration, the `in`
operator, and `set(...)` construction, each raising the corresponding
Python exception on unsupported shapes. -/

/-- JSON values as produced by Python `response.json()`. -/
inductive JVal where
  | null
  | bool (b : Bool)
  | num (n : Int)
  | str (s : String)
  | arr (elems : List JVal)
  | obj (fields : List (String × JVal))

/-- Python exceptions the script can catch in its `except` blocks. -/
inductive PyErr where
  | keyError (key : String)
  | typeError (msg : String)
  | attributeError (msg : String)
  | jsonDecodeError
  | requestException (msg : String)

/-- Python dict lookup on a parsed JSON object; with duplicate keys the
last binding wins, as in `json.loads`. -/
def jlookup (k : String) : List (String × JVal) → Option JVal
  | [] => none
  | (k2, v) :: rest =>
    match jlookup k rest with
    | some w => some w
    | none => if k2 = k then some v else none

/-- Python truthiness of a JSON value. -/
def jtruthy : JVal → Bool
  | .null => false
  | .bool b => b
  | .num n => n != 0
  | .str s => !s.isEmpty
  | .arr l => !l.isEmpty
  | .obj f => !f.isEmpty

/-- Python `result.get(k)`: succeeds only on a dict, otherwise raises
`AttributeError`. -/
def jget (result : JVal) (k : String) : Except PyErr (Option JVal) :=
  match result with
  | .obj f => .ok (jlookup k f)
  | _ => .error (.attributeError "get")

/-- Python `==` between a str and an arbitrary value: values of other
types never compare equal to a str. -/
def jeqStr (v : JVal) (s : String) : Bool :=
  match v with
  | .str t => t == s
  | _ => false

/-- Python substring test `needle in hay` between strings. -/
def pyStrIn (needle : List Char) : List Char → Bool
  | [] => needle.isEmpty
  | c :: rest => needle.isPrefixOf (c :: rest) || pyStrIn needle rest

/-- Python `needle in hay` for a str needle: element test on a list,
substring test on a str, key test on a dict, `TypeError` otherwise. -/
def jmem (needle : String) (hay : JVal) : Except PyErr Bool :=
  match hay with
  | .arr l => .ok (l.any fun v => jeqStr v needle)
  | .str s => .ok (pyStrIn needle.data s.data)
  | .obj f => .ok (f.any fun p => p.1 == needle)
  | _ => .error (.typeError "argument is not iterable")

/-- Whether a JSON value is hashable in Python (lists and dicts are
not). -/
def jhashable : JVal → Bool
  | .arr _ => false
  | .obj _ => false
  | _ => true

/-- Python `set(v)`, represented as the list of its members: from a list
when all elements are hashable, the characters of a str, the keys of a
dict; `TypeError` otherwise. -/
def jset : JVal → Except PyErr (List JVal)
  | .arr l =>
    if l.all jhashable then .ok l else .error (.typeError "unhashable type")
  | .str s => .ok (s.data.map fun c => .str (String.mk [c]))
  | .obj f => .ok (f.map fun p => .str p.1)
  | _ => .error (.typeError "object is not iterable")

/-- Python `len(v)`: `none` models the `TypeError` raised on values
without a length. -/
def jlen : JVal → Option Nat
  | .arr l => some l.length
  | .str s => some s.length
  | .obj f => some f.length
  | _ => none

/-- Python iteration over a value: elements of a list, characters of a
str, keys of a dict; `TypeError` otherwise. -/
def jiter : JVal → Except PyErr (List JVal)
  | .arr l => .ok l
  | .str s => .ok (s.data.map fun c => .str (String.mk [c]))
  | .obj f => .ok (f.map fun p => .str p.1)
  | _ => .error (.typeError "object is not iterable")

/-! ## Console output and HTTP outcomes

Each constructor of `OutputLine` stands for one `print` statement of the
script, carrying the data interpolated into its f-string.  An operation
is a pure function from the outcome of its single HTTP call to the list
of lines it prints. -/

/-- One printed line of the script, by originating `print` statement. -/
inductive OutputLine where
  | sending (endpoint : String)
  | payload (nodes : List (String × String)) (append : Bool)
  | activatedHeader
  | estadoLine (result : JVal)
  | activeHeader
  | nodeMark (marked : Bool) (id name : String)
  | warnHeader
  | warnNode (id name : String)
  | resetOk
  | estadoHeader
  | countLine (n : Nat)
  | statusEntry (pos : Nat) (id name : JVal)
  | noActive
  | rawDump (result : JVal)
  | httpError (status : Nat) (body : String)
  | connError (e : PyErr)
  | helpText
  | usageErrorLine
  | formatErrorLine

/-- Outcome of the single HTTP request an operation performs: either a
response (with status code, raw text, and the JSON value `response.json()`
would return — `none` when that call would raise), or a transport-level
exception raised by `requests`. -/
inductive HttpOutcome where
  | resp (status : Nat) (text : String) (json : Option JVal)
  | transport (e : PyErr)

/-- Per-node marking loop of `activar_nodos` (lines 41-44): prints one
mark line per requested node until a `node_id in active_nodes` test
raises; the second component is the pending exception, if any. -/
def markLoop (active : JVal) : List (String × String) → List OutputLine × Option PyErr
  | [] => ([], none)
  | n :: rest =>
    match jmem n.1 active with
    | .error e => ([], some e)
    | .ok b =>
      let r := markLoop active rest
      (.nodeMark b n.1 n.2 :: r.1, r.2)

/-- Lines 39-54 of `activar_nodos`: header, per-node marks, then the
missing-node warning computed from `set(active_nodes)`; the second
component is the pending exception, if any. -/
def activarActiveSection (nodes : List (String × String)) (active : JVal) :
    List OutputLine × Option PyErr :=
  let m := markLoop active nodes
  match m.2 with
  | some e => (.activeHeader :: m.1, some e)
  | none =>
    match jset active with
    | .error e => (.activeHeader :: m.1, some e)
    | .ok activatedIds =>
      let missingNodes := nodes.filter fun n => !(activatedIds.any fun v => jeqStr v n.1)
      if missingNodes.isEmpty then (.activeHeader :: m.1, none)
      else
        (.activeHeader :: m.1 ++ .warnHeader :: missingNodes.map fun n => .warnNode n.1 n.2,
         none)

/-- Embedding of `activar_nodos` (lines 15-58): POSTs to
`{server_url}/activate` and prints the report; every exception inside
the `try` block is caught and printed as a connection error. -/
def activar_nodos (node_data : List (String × String)) (append : Bool)
    (server_url : String) (outcome : HttpOutcome) : List OutputLine :=
  let endpoint := server_url ++ "/activate"
  .sending endpoint :: .payload node_data append ::
    match outcome with
    | .transport e => [.connError e]
    | .resp status text json =>
      if status = 200 then
        match json with
        | none => [.connError .jsonDecodeError]
        | some result =>
          .activatedHeader :: .estadoLine result ::
            match jget result "activeNodes" with
            | .error e => [.connError e]
            | .ok fo =>
              match fo with
              | some active =>
                if jtruthy active then
                  let s := activarActiveSection node_data active
                  s.1 ++ (match s.2 with | some e => [.connError e] | none => [])
                else []
              | none => []
      else [.httpError status text]

/-- Embedding of `reiniciar` (lines 60-73): POSTs to
`{server_url}/reset` and prints confirmation or error. -/
def reiniciar (server_url : String) (outcome : HttpOutcome) : List OutputLine :=
  .sending (server_url ++ "/reset") ::
    match outcome with
    | .transport e => [.connError e]
    | .resp status text _ =>
      if status = 200 then [.resetOk] else [.httpError status text]

/-- Numbered-listing loop of `verificar_estado` (lines 90-93): one entry
per element until `node['id']` raises `KeyError` on a dict without an
`id` key; the second component is the pending exception, if any. -/
def statusLoop : Nat → List JVal → List OutputLine × Option PyErr
  | _, [] => ([], none)
  | i, .obj f :: rest =>
    (match jlookup "id" f with
     | none => ([], some (.keyError "id"))
     | some idv =>
       let namev := (jlookup "name" f).getD (.str "Sin nombre")
       let r := statusLoop (i + 1) rest
       (.statusEntry (i + 1) idv namev :: r.1, r.2))
  | i, node :: rest =>
    let r := statusLoop (i + 1) rest
    (.statusEntry (i + 1) node (.str "Sin nombre") :: r.1, r.2)

/-- Embedding of `verificar_estado` (lines 75-103): GETs
`{server_url}/status` and prints the numbered listing plus the full raw
JSON body; every exception inside the `try` block is caught and printed
as a connection error. -/
def verificar_estado (server_url : String) (outcome : HttpOutcome) : List OutputLine :=
  .sending (server_url ++ "/status") ::
    match outcome with
    | .transport e => [.connError e]
    | .resp status text json =>
      if status = 200 then
        match json with
        | none => [.connError .jsonDecodeError]
        | some result =>
          match jget result "activeNodes" with
          | .error e => [.connError e]
          | .ok fo =>
            let active := fo.getD (.arr [])
            .estadoHeader ::
              if jtruthy active then
                match jlen active with
                | none => [.connError (.typeError "object has no len")]
                | some n =>
                  match jiter active with
                  | .error e => [.countLine n, .connError e]
                  | .ok entries =>
                    let r := statusLoop 0 entries
                    .countLine n :: r.1 ++
                      (match r.2 with
                       | some e => [.connError e]
                       | none => [.rawDump result])
              else [.noActive, .rawDump result]
      else [.httpError status text]

/-! ## Command line (lines 105-151)

`parseArgs` embeds the configured `argparse` parser: a global
`--server` (short `-s`) option and three subcommands, where `activar`
requires `--nodes` (short `-n`) with one or more values and accepts the
`--append` (short `-a`) flag.
An `argparse` error (missing required option, unrecognized argument)
prints usage and terminates with exit status 2. -/

/-- Parsed command line: subcommand with its options. -/
inductive Comando where
  | activar (nodes : List String) (append : Bool)
  | reiniciar
  | estado
  deriving DecidableEq

/-- Result of `parser.parse_args()`: server URL plus optional
subcommand. -/
structure Args where
  server : String
  comando : Option Comando
  deriving DecidableEq

/-- Outcome of argument parsing: parsed args, or an `argparse` error
(which exits the process with status 2). -/
inductive ArgsResult where
  | ok (a : Args)
  | usageError
  deriving DecidableEq

/-- Module-level default server URL (line 13). -/
def DEFAULT_SERVER_URL : String := "http://localhost:3000/api/brain"

/-- Whether `argparse` treats a token as an option (starts with a
dash). -/
def isOptionLike (s : String) : Bool :=
  match s.data with
  | c :: _ => c = '-'
  | [] => false

/-- Option scanning for the `activar` subcommand.  `cur = some acc`
means a `--nodes` value run is open with accumulated values `acc`
(reversed); closing an empty run is an error because `nargs` is `+`;
a later `--nodes` overwrites an earlier one. -/
def parseActivarLoop : List String → Option (List String) → Bool → Option (List String) →
    Option (List String × Bool)
  | [], nodes, app, none =>
    (match nodes with
     | some ns => some (ns, app)
     | none => none)
  | [], _, app, some acc =>
    if acc.isEmpty then none else some (acc.reverse, app)
  | a :: rest, nodes, app, cur =>
    if a = "--nodes" || a = "-n" then
      match cur with
      | some acc =>
        if acc.isEmpty then none else parseActivarLoop rest (some acc.reverse) app (some [])
      | none => parseActivarLoop rest nodes app (some [])
    else if a = "--append" || a = "-a" then
      match cur with
      | some acc =>
        if acc.isEmpty then none else parseActivarLoop rest (some acc.reverse) true none
      | none => parseActivarLoop rest nodes true none
    else if isOptionLike a then none
    else
      match cur with
      | some acc => parseActivarLoop rest nodes app (some (a :: acc))
      | none => none

/-- Top-level scan of the configured parser: `--server` (short `-s`)
takes one value, then one of the three subcommands with its own
options. -/
def parseArgsLoop : List String → String → ArgsResult
  | [], server => .ok ⟨server, none⟩
  | a :: rest, server =>
    if a = "--server" || a = "-s" then
      match rest with
      | [] => .usageError
      | v :: vrest => if isOptionLike v then .usageError else parseArgsLoop vrest v
    else if a = "activar" then
      match parseActivarLoop rest none false none with
      | some p => .ok ⟨server, some (.activar p.1 p.2)⟩
      | none => .usageError
    else if a = "reiniciar" then
      if rest.isEmpty then .ok ⟨server, some .reiniciar⟩ else .usageError
    else if a = "estado" then
      if rest.isEmpty then .ok ⟨server, some .estado⟩ else .usageError
    else .usageError

/-- Embedding of `parser.parse_args()` for this parser configuration. -/
def parseArgs (argv : List String) : ArgsResult :=
  parseArgsLoop argv DEFAULT_SERVER_URL

/-- Token parsing lifted to `String`. -/
def parseToken (s : String) : Option (String × String) :=
  (parseNodeToken s.data).map fun p => (String.mk p.1, String.mk p.2)

/-- The token-processing loop of `__main__` (lines 137-141) inside its
`try` block: `none` models the `ValueError` branch (lines 143-145). -/
def parseTokens : List String → Option (List (String × String))
  | [] => some []
  | t :: ts =>
    match parseToken t with
    | none => none
    | some p => (parseTokens ts).map (p :: ·)

/-- Embedding of `__main__` (lines 105-151): parses arguments,
dispatches the subcommand, and returns the printed trace together with
the process exit status. -/
def runMain (argv : List String) (outcome : HttpOutcome) : List OutputLine × Nat :=
  match parseArgs argv with
  | .usageError => ([.usageErrorLine], 2)
  | .ok a =>
    match a.comando with
    | none => ([.helpText], 1)
    | some (.activar tokens append) =>
      match parseTokens tokens with
      | none => ([.formatErrorLine], 1)
      | some node_data => (activar_nodos node_data append a.server outcome, 0)
    | some .reiniciar => (reiniciar a.server outcome, 0)
    | some .estado => (verificar_estado a.server outcome, 0)

/-- Rendering of one `activeNodes` entry in the status listing, as the
claims describe it for entries on which the code does not raise: the
displayed position is 1-based, a dict entry shows its `id` and its
`name` (defaulted to the placeholder), a bare entry shows itself with
the placeholder name. -/
def renderEntry (i : Nat) : JVal → OutputLine
  | .obj f =>
    .statusEntry (i + 1) ((jlookup "id" f).getD .null)
      ((jlookup "name" f).getD (.str "Sin nombre"))
  | v => .statusEntry (i + 1) v (.str "Sin nombre")

/-- Rendering of a whole `activeNodes` list via `renderEntry`. -/
def renderEntries : Nat → List JVal → List OutputLine
  | _, [] => []
  | i, v :: vs => renderEntry i v :: renderEntries (i + 1) vs

/-- Whether a status entry is one the listing loop can print without
raising: any non-dict value, or a dict that has an `id` key. -/
def entryRenderable : JVal → Bool
  | .obj f => (jlookup "id" f).isSome
  | _ => true

/-! ## Theorems -/

theorem pysplit_ne_nil (c : Char) (s : List Char) : pysplit c s ≠ [] := by
  induction s with
  | nil => simp [pysplit]
  | cons x xs ih =>
    simp only [pysplit]
    split
    · simp
    · match h : pysplit c xs with
      | [] => exact absurd h ih
      | y :: ys => simp

theorem pysplit_not_mem (c : Char) (s : List Char) (h : c ∉ s) :
    pysplit c s = [s] := by
  induction s with
  | nil => rfl
  | cons x xs ih =>
    simp only [List.mem_cons, not_or] at h
    simp only [pysplit]
    rw [if_neg (fun hx => h.1 hx.symm), ih h.2]

theorem pysplit_sep (c : Char) (idc rest : List Char) (h : c ∉ idc) :
    pysplit c (idc ++ c :: rest) = idc :: pysplit c rest := by
  induction idc with
  | nil => simp [pysplit]
  | cons x xs ih =>
    simp only [List.mem_cons, not_or] at h
    simp only [List.cons_append, pysplit, List.append_eq]
    rw [if_neg (fun hx => h.1 hx.symm), ih h.2]

theorem pyjoin_pysplit (c : Char) (s : List Char) :
    pyjoin c (pysplit c s) = s := by
  induction s with
  | nil => rfl
  | cons x xs ih =>
    simp only [pysplit]
    split
    · next hx =>
      subst hx
      match h : pysplit x xs with
      | [] => exact absurd h (pysplit_ne_nil x xs)
      | y :: ys =>
        rw [h] at ih
        simpa [pyjoin] using ih
    · match h : pysplit c xs with
      | [] => exact absurd h (pysplit_ne_nil c xs)
      | [y] =>
        rw [h] at ih
        simpa [pyjoin] using ih
      | y :: z :: ys =>
        rw [h] at ih
        simpa [pyjoin] using ih

theorem parseNodeToken_no_colon (s : List Char) (h : ':' ∉ s) :
    parseNodeToken s = some (s, neuronName s) := by
  simp [parseNodeToken, pysplit_not_mem ':' s h, List.isEmpty]

theorem parseNodeToken_colon (idc nm : List Char) (h : ':' ∉ idc) :
    parseNodeToken (idc ++ ':' :: nm) = some (idc, nm) := by
  have hsplit := pysplit_sep ':' idc nm h
  have hne := pysplit_ne_nil ':' nm
  simp only [parseNodeToken, hsplit]
  match hrest : pysplit ':' nm with
  | [] => exact absurd hrest hne
  | y :: ys =>
    have hjoin := pyjoin_pysplit ':' nm
    rw [hrest] at hjoin
    simp [List.isEmpty, hjoin]

theorem parseNodeToken_isSome (s : List Char) :
    (parseNodeToken s).isSome = true := by
  simp only [parseNodeToken]
  match h : pysplit ':' s with
  | [] => exact absurd h (pysplit_ne_nil ':' s)
  | idc :: rest => rfl

theorem parseTokens_isSome (ts : List String) :
    (parseTokens ts).isSome = true := by
  induction ts with
  | nil => rfl
  | cons t ts ih =>
    simp only [parseTokens, parseToken]
    have h := parseNodeToken_isSome t.data
    match hp : parseNodeToken t.data with
    | none => rw [hp] at h; exact absurd h (by simp)
    | some p =>
      match hq : parseTokens ts with
      | none => rw [hq] at ih; exact absurd ih (by simp)
      | some l => simp

/-- C2.  For every node token: with at least one colon, the id is the
part before the first colon and the name is the verbatim remainder after
it (so colons inside the name survive); with no colon, the name defaults
to `Neuron` followed by the token.  Every token with a colon decomposes
uniquely as `idc ++ ':' :: nm` with `':' ∉ idc`, so the two conjuncts
cover all tokens. -/
theorem parse_token_splits_on_first_colon (idc nm s : List Char)
    (h1 : ':' ∉ idc) (h2 : ':' ∉ s) :
    parseNodeToken (idc ++ ':' :: nm) = some (idc, nm) ∧
    parseNodeToken s = some (s, neuronName s) :=
  ⟨parseNodeToken_colon idc nm h1, parseNodeToken_no_colon s h2⟩

theorem parse_token_splits_on_first_colon_witness :
    parseNodeToken ("144".data ++ ':' :: "Vis:ual".data) =
      some ("144".data, "Vis:ual".data) ∧
    parseNodeToken "145".data = some ("145".data, "Neuron 145".data) :=
  parse_token_splits_on_first_colon "144".data "Vis:ual".data "145".data
    (by decide) (by decide)

/-- C3.  Node-token parsing is total: splitting on the colon always
yields at least one segment, so every token (and hence every token list)
parses to a pair and the `ValueError` format-error branch in `__main__`
is unreachable. -/
theorem token_parsing_total :
    (∀ s : List Char, (parseNodeToken s).isSome = true) ∧
    (∀ ts : List String, (parseTokens ts).isSome = true) ∧
    (∀ ts : List String, parseTokens ts ≠ none) := by
  refine ⟨parseNodeToken_isSome, parseTokens_isSome, fun ts h => ?_⟩
  have := parseTokens_isSome ts
  rw [h] at this
  exact absurd this (by simp)

/-- C9 counterexample.  The token `a:b:` ends in a colon, yet parsing
yields the name `b:`, not the empty string the claim demands for every
token ending in a colon. -/
theorem trailing_colon_keeps_remainder_cex :
    parseNodeToken ['a', ':', 'b', ':'] = some (['a'], ['b', ':']) ∧
    (['b', ':'] : List Char) ≠ [] := by
  exact ⟨rfl, by simp⟩

/-- C9 amended.  A token whose remainder after its first colon is empty
— that is, its only colon is the final character — parses with the empty
name, and the `Neuron` default is applied exactly when the token has no
colon at all; a token that merely ends in a colon but contains an
earlier colon keeps the whole remainder as its name. -/
theorem empty_remainder_gives_empty_name (idc : List Char) (h : ':' ∉ idc) :
    parseNodeToken (idc ++ [':']) = some (idc, []) ∧
    parseNodeToken idc = some (idc, neuronName idc) :=
  ⟨parseNodeToken_colon idc [] h, parseNodeToken_no_colon idc h⟩

theorem empty_remainder_gives_empty_name_witness :
    parseNodeToken ("id".data ++ [':']) = some ("id".data, []) ∧
    parseNodeToken "id".data = some ("id".data, "Neuron id".data) :=
  empty_remainder_gives_empty_name "id".data (by decide)

theorem runMain_subcommand_exit_zero (argv : List String) (a : Args)
    (c : Comando) (outcome : HttpOutcome)
    (hp : parseArgs argv = .ok a) (hc : a.comando = some c) :
    (runMain argv outcome).2 = 0 := by
  simp only [runMain, hp, hc]
  cases c with
  | activar tokens app =>
    have h := parseTokens_isSome tokens
    match hq : parseTokens tokens with
    | none => rw [hq] at h; exact absurd h (by simp)
    | some nd => simp [hq]
  | reiniciar => rfl
  | estado => rfl

/-- C4.  For each of the three operations, a non-200 response makes the
client print the error line carrying the numeric status code and the raw
response body; no exception escapes (each operation returns its full
trace), and a process that reached the operation exits with status 0. -/
theorem non200_prints_error_and_exits_zero (nd : List (String × String))
    (app : Bool) (url text : String) (json : Option JVal) (status : Nat)
    (argv : List String) (a : Args) (c : Comando)
    (h : status ≠ 200) (hp : parseArgs argv = .ok a) (hc : a.comando = some c) :
    activar_nodos nd app url (.resp status text json) =
      [.sending (url ++ "/activate"), .payload nd app, .httpError status text] ∧
    reiniciar url (.resp status text json) =
      [.sending (url ++ "/reset"), .httpError status text] ∧
    verificar_estado url (.resp status text json) =
      [.sending (url ++ "/status"), .httpError status text] ∧
    (runMain argv (.resp status text json)).2 = 0 := by
  refine ⟨?_, ?_, ?_, runMain_subcommand_exit_zero argv a c _ hp hc⟩
  · simp [activar_nodos, h]
  · simp [reiniciar, h]
  · simp [verificar_estado, h]

theorem non200_prints_error_and_exits_zero_witness :
    activar_nodos [("1", "A")] false DEFAULT_SERVER_URL (.resp 500 "boom" none) =
      [.sending (DEFAULT_SERVER_URL ++ "/activate"), .payload [("1", "A")] false,
       .httpError 500 "boom"] ∧
    reiniciar DEFAULT_SERVER_URL (.resp 500 "boom" none) =
      [.sending (DEFAULT_SERVER_URL ++ "/reset"), .httpError 500 "boom"] ∧
    verificar_estado DEFAULT_SERVER_URL (.resp 500 "boom" none) =
      [.sending (DEFAULT_SERVER_URL ++ "/status"), .httpError 500 "boom"] ∧
    (runMain ["estado"] (.resp 500 "boom" none)).2 = 0 :=
  non200_prints_error_and_exits_zero [("1", "A")] false DEFAULT_SERVER_URL
    "boom" none 500 ["estado"] ⟨DEFAULT_SERVER_URL, some .estado⟩ .estado
    (by decide) (by decide) (by decide)

/-- C5.  For each of the three operations, a transport-level exception
raised during the request is caught at the call site and printed as a
connection-error line carrying the exception; each operation still
returns its full trace (nothing propagates), and a process that reached
the operation exits with status 0. -/
theorem transport_error_caught (nd : List (String × String)) (app : Bool)
    (url : String) (e : PyErr) (argv : List String) (a : Args) (c : Comando)
    (hp : parseArgs argv = .ok a) (hc : a.comando = some c) :
    activar_nodos nd app url (.transport e) =
      [.sending (url ++ "/activate"), .payload nd app, .connError e] ∧
    reiniciar url (.transport e) = [.sending (url ++ "/reset"), .connError e] ∧
    verificar_estado url (.transport e) =
      [.sending (url ++ "/status"), .connError e] ∧
    (runMain argv (.transport e)).2 = 0 :=
  ⟨rfl, rfl, rfl, runMain_subcommand_exit_zero argv a c _ hp hc⟩

theorem transport_error_caught_witness :
    activar_nodos [("1", "A")] false DEFAULT_SERVER_URL
        (.transport (.requestException "conexion rechazada")) =
      [.sending (DEFAULT_SERVER_URL ++ "/activate"), .payload [("1", "A")] false,
       .connError (.requestException "conexion rechazada")] ∧
    reiniciar DEFAULT_SERVER_URL (.transport (.requestException "conexion rechazada")) =
      [.sending (DEFAULT_SERVER_URL ++ "/reset"),
       .connError (.requestException "conexion rechazada")] ∧
    verificar_estado DEFAULT_SERVER_URL (.transport (.requestException "conexion rechazada")) =
      [.sending (DEFAULT_SERVER_URL ++ "/status"),
       .connError (.requestException "conexion rechazada")] ∧
    (runMain ["reiniciar"] (.transport (.requestException "conexion rechazada"))).2 = 0 :=
  transport_error_caught [("1", "A")] false DEFAULT_SERVER_URL
    (.requestException "conexion rechazada") ["reiniciar"]
    ⟨DEFAULT_SERVER_URL, some .reiniciar⟩ .reiniciar (by decide) (by decide)

/-- C6 counterexample.  Invoking the `activar` subcommand without the
required `--nodes` option is an argument error, but the process exits
with `argparse` status 2, not with status 1 as the claim states. -/
theorem missing_required_option_exits_two_cex :
    (runMain ["activar"] (.transport (.requestException "x"))).2 = 2 ∧
    (runMain ["activar"] (.transport (.requestException "x"))).2 ≠ 1 := by
  exact ⟨rfl, by decide⟩

/-- C6 amended.  An argument error detected by `argparse` — such as a
missing required option, including omitting `--nodes` for `activar` —
terminates the process with exit code 2 (the `argparse` error status,
not 1); the malformed-node-token error path of `__main__` exists but no
token reaches it, since tokenization is total. -/
theorem argparse_error_exits_two (argv : List String) (outcome : HttpOutcome)
    (h : parseArgs argv = .usageError) :
    runMain argv outcome = ([.usageErrorLine], 2) := by
  simp [runMain, h]

theorem argparse_error_exits_two_witness :
    runMain ["activar"] (.resp 200 "" none) = ([.usageErrorLine], 2) :=
  argparse_error_exits_two ["activar"] (.resp 200 "" none) (by decide)

/-- C7.  When the command line parses successfully but names no
subcommand, the process prints the usage help and exits with status 1. -/
theorem no_subcommand_help_exit_one (argv : List String) (a : Args)
    (outcome : HttpOutcome) (hp : parseArgs argv = .ok a)
    (hc : a.comando = none) :
    runMain argv outcome = ([.helpText], 1) := by
  simp [runMain, hp, hc]

theorem no_subcommand_help_exit_one_witness :
    runMain [] (.resp 200 "" none) = ([.helpText], 1) :=
  no_subcommand_help_exit_one [] ⟨DEFAULT_SERVER_URL, none⟩ (.resp 200 "" none)
    (by decide) (by decide)

theorem statusLoop_renderable (entries : List JVal) :
    ∀ i : Nat, (∀ v ∈ entries, entryRenderable v = true) →
      statusLoop i entries = (renderEntries i entries, none) := by
  induction entries with
  | nil => intro i _; rfl
  | cons v rest ih =>
    intro i h
    have hrest := fun w hw => h w (List.mem_cons_of_mem _ hw)
    have hv := h v (List.mem_cons_self _ _)
    cases v with
    | obj f =>
      simp only [entryRenderable] at hv
      match hid : jlookup "id" f with
      | none => rw [hid] at hv; exact absurd hv (by simp)
      | some idv =>
        simp [statusLoop, hid, renderEntries, renderEntry, ih (i + 1) hrest]
    | null => simp [statusLoop, renderEntries, renderEntry, ih (i + 1) hrest]
    | bool b => simp [statusLoop, renderEntries, renderEntry, ih (i + 1) hrest]
    | num n => simp [statusLoop, renderEntries, renderEntry, ih (i + 1) hrest]
    | str s => simp [statusLoop, renderEntries, renderEntry, ih (i + 1) hrest]
    | arr l => simp [statusLoop, renderEntries, renderEntry, ih (i + 1) hrest]

theorem statusLoop_keyError (pre post : List JVal) (f : List (String × JVal))
    (hf : jlookup "id" f = none) :
    ∀ i : Nat, (∀ v ∈ pre, entryRenderable v = true) →
      statusLoop i (pre ++ .obj f :: post) =
        (renderEntries i pre, some (.keyError "id")) := by
  induction pre with
  | nil => intro i _; simp [statusLoop, hf, renderEntries]
  | cons v rest ih =>
    intro i h
    have hrest := fun w hw => h w (List.mem_cons_of_mem _ hw)
    have hv := h v (List.mem_cons_self _ _)
    cases v with
    | obj g =>
      simp only [entryRenderable] at hv
      match hid : jlookup "id" g with
      | none => rw [hid] at hv; exact absurd hv (by simp)
      | some idv =>
        simp [statusLoop, hid, renderEntries, renderEntry, ih (i + 1) hrest]
    | null => simp [statusLoop, renderEntries, renderEntry, ih (i + 1) hrest]
    | bool b => simp [statusLoop, renderEntries, renderEntry, ih (i + 1) hrest]
    | num n => simp [statusLoop, renderEntries, renderEntry, ih (i + 1) hrest]
    | str s => simp [statusLoop, renderEntries, renderEntry, ih (i + 1) hrest]
    | arr l => simp [statusLoop, renderEntries, renderEntry, ih (i + 1) hrest]

/-- C8.  On a 200 status response whose `activeNodes` entries are each a
bare value or a dict with an `id` key: a non-empty list is printed as a
1-based numbered list with the placeholder name for bare entries and for
dicts without a `name` key, followed by the raw JSON body; an empty or
absent `activeNodes` prints the no-active-nodes message, also followed
by the raw JSON body. -/
theorem status_200_listing (url text : String) (entries : List JVal)
    (hwf : ∀ v ∈ entries, entryRenderable v = true) :
    verificar_estado url
        (.resp 200 text (some (.obj [("activeNodes", .arr entries)]))) =
      .sending (url ++ "/status") :: .estadoHeader ::
        (if entries.isEmpty then
          [.noActive, .rawDump (.obj [("activeNodes", .arr entries)])]
         else
          .countLine entries.length :: renderEntries 0 entries ++
            [.rawDump (.obj [("activeNodes", .arr entries)])]) ∧
    verificar_estado url (.resp 200 text (some (.obj []))) =
      [.sending (url ++ "/status"), .estadoHeader, .noActive, .rawDump (.obj [])] := by
  constructor
  · cases entries with
    | nil => rfl
    | cons v vs =>
      simp [verificar_estado, jget, jlookup, jtruthy, jlen, jiter,
        statusLoop_renderable (v :: vs) 0 hwf]
  · rfl

theorem status_200_listing_witness :
    verificar_estado DEFAULT_SERVER_URL
        (.resp 200 "" (some (.obj [("activeNodes",
          .arr [.str "2", .obj [("id", .str "1"), ("name", .str "A")],
                .obj [("id", .str "3")]])]))) =
      .sending (DEFAULT_SERVER_URL ++ "/status") :: .estadoHeader ::
        (if ([JVal.str "2", .obj [("id", .str "1"), ("name", .str "A")],
              .obj [("id", .str "3")]] : List JVal).isEmpty then
          [.noActive, .rawDump (.obj [("activeNodes",
            .arr [.str "2", .obj [("id", .str "1"), ("name", .str "A")],
                  .obj [("id", .str "3")]])])]
         else
          .countLine 3 :: renderEntries 0
              [.str "2", .obj [("id", .str "1"), ("name", .str "A")],
               .obj [("id", .str "3")]] ++
            [.rawDump (.obj [("activeNodes",
              .arr [.str "2", .obj [("id", .str "1"), ("name", .str "A")],
                    .obj [("id", .str "3")]])])]) ∧
    verificar_estado DEFAULT_SERVER_URL (.resp 200 "" (some (.obj []))) =
      [.sending (DEFAULT_SERVER_URL ++ "/status"), .estadoHeader, .noActive,
       .rawDump (.obj [])] :=
  status_200_listing DEFAULT_SERVER_URL ""
    [.str "2", .obj [("id", .str "1"), ("name", .str "A")], .obj [("id", .str "3")]]
    (by intro v hv; fin_cases hv <;> rfl)

/-- C10.  On a 200 status response whose `activeNodes` list has a dict
entry without an `id` key, the lookup raises `KeyError`, the generic
handler reports it as a connection error, and the output stops there:
the entries before the faulty one are printed, but neither the later
entries nor the raw JSON dump appear. -/
theorem status_keyerror_truncates (url text : String) (pre post : List JVal)
    (f : List (String × JVal))
    (hpre : ∀ v ∈ pre, entryRenderable v = true)
    (hf : jlookup "id" f = none) :
    verificar_estado url
        (.resp 200 text (some (.obj [("activeNodes",
          .arr (pre ++ .obj f :: post))]))) =
      [.sending (url ++ "/status"), .estadoHeader,
       .countLine (pre ++ JVal.obj f :: post).length] ++ renderEntries 0 pre ++
        [.connError (.keyError "id")] := by
  have hloop := statusLoop_keyError pre post f hf 0 hpre
  cases pre with
  | nil =>
    simp only [List.nil_append] at hloop ⊢
    simp [verificar_estado, jget, jlookup, jtruthy, jlen, jiter, hloop,
      renderEntries]
  | cons v vs =>
    simp only [List.cons_append] at hloop ⊢
    simp [verificar_estado, jget, jlookup, jtruthy, jlen, jiter, hloop]

theorem status_keyerror_truncates_witness :
    verificar_estado DEFAULT_SERVER_URL
        (.resp 200 "" (some (.obj [("activeNodes",
          .arr ([.str "0"] ++ .obj [("name", .str "x")] :: [.str "9"]))]))) =
      [.sending (DEFAULT_SERVER_URL ++ "/status"), .estadoHeader,
       .countLine ([JVal.str "0"] ++ JVal.obj [("name", .str "x")] ::
         [JVal.str "9"]).length] ++ renderEntries 0 [.str "0"] ++
        [.connError (.keyError "id")] :=
  status_keyerror_truncates DEFAULT_SERVER_URL "" [.str "0"] [.str "9"]
    [("name", .str "x")] (by intro v hv; fin_cases hv; rfl) (by rfl)

theorem jmemList_str (ids : List String) (x : String) :
    ((ids.map JVal.str).any fun v => jeqStr v x) = decide (x ∈ ids) := by
  induction ids with
  | nil => simp
  | cons i ids ih =>
    simp only [List.map_cons, List.any_cons]
    rw [ih, Bool.eq_iff_iff]
    simp only [Bool.or_eq_true, decide_eq_true_eq, List.mem_cons]
    constructor
    · rintro (h | h)
      · have hix : i = x := by simpa [jeqStr] using h
        exact Or.inl hix.symm
      · exact Or.inr h
    · rintro (h | h)
      · exact Or.inl (by simp [jeqStr, h])
      · exact Or.inr h

theorem markLoop_str (ids : List String) (nodes : List (String × String)) :
    markLoop (.arr (ids.map .str)) nodes =
      (nodes.map fun n => .nodeMark (decide (n.1 ∈ ids)) n.1 n.2, none) := by
  induction nodes with
  | nil => rfl
  | cons n rest ih =>
    simp only [markLoop, jmem, jmemList_str, ih, List.map_cons]

theorem jset_str (ids : List String) :
    jset (.arr (ids.map .str)) = .ok (ids.map .str) := by
  have h : (ids.map JVal.str).all jhashable = true := by
    induction ids with
    | nil => rfl
    | cons i ids ih => simp [jhashable, ih]
  simp [jset, h]

theorem activarActiveSection_str (nodes : List (String × String))
    (ids : List String) :
    activarActiveSection nodes (.arr (ids.map .str)) =
      (.activeHeader ::
        (nodes.map fun n => .nodeMark (decide (n.1 ∈ ids)) n.1 n.2) ++
        (if (nodes.filter fun n => !decide (n.1 ∈ ids)).isEmpty then []
         else .warnHeader ::
           (nodes.filter fun n => !decide (n.1 ∈ ids)).map fun n =>
             .warnNode n.1 n.2),
       none) := by
  simp only [activarActiveSection, markLoop_str, jset_str, jmemList_str]
  split
  · next hempty => simp [hempty]
  · next hempty => simp [hempty]

/-- C1 counterexample.  On a 200 activate response whose `activeNodes`
is the empty list, the requested node `1` is not activated — the set
difference requested-minus-activated is non-empty — yet the trace
contains no warning section at all (and no per-node marks either),
because the whole report block is guarded by the truthiness of
`activeNodes`. -/
theorem activar_empty_active_no_warning_cex :
    activar_nodos [("1", "A")] false DEFAULT_SERVER_URL
        (.resp 200 "ok" (some (.obj [("activeNodes", .arr [])]))) =
      [.sending (DEFAULT_SERVER_URL ++ "/activate"), .payload [("1", "A")] false,
       .activatedHeader, .estadoLine (.obj [("activeNodes", .arr [])])] ∧
    (([("1", "A")] : List (String × String)).filter fun n =>
      !(([] : List JVal).any fun v => jeqStr v n.1)) = [("1", "A")] ∧
    ¬ OutputLine.warnHeader ∈ activar_nodos [("1", "A")] false DEFAULT_SERVER_URL
        (.resp 200 "ok" (some (.obj [("activeNodes", .arr [])]))) := by
  refine ⟨rfl, rfl, ?_⟩
  intro h
  simp only [show activar_nodos [("1", "A")] false DEFAULT_SERVER_URL
      (.resp 200 "ok" (some (.obj [("activeNodes", .arr [])]))) =
      [.sending (DEFAULT_SERVER_URL ++ "/activate"), .payload [("1", "A")] false,
       .activatedHeader, .estadoLine (.obj [("activeNodes", .arr [])])] from rfl,
    List.mem_cons, List.mem_singleton] at h
  rcases h with h | h | h | h <;> exact absurd h (by simp)

/-- C1 amended.  On a 200 activate response whose `activeNodes` is a
non-empty list of identifier strings, each requested node is marked
exactly when its id occurs in `activeNodes`, and the requested nodes
whose ids were not activated are listed after a warning header exactly
when there are any; when `activeNodes` is empty or absent, the per-node
report and the warning are both omitted. -/
theorem activar_marks_and_warns (node_data : List (String × String))
    (ids : List String) (app : Bool) (url text : String) (hne : ids ≠ []) :
    activar_nodos node_data app url
        (.resp 200 text (some (.obj [("activeNodes", .arr (ids.map .str))]))) =
      .sending (url ++ "/activate") :: .payload node_data app ::
        .activatedHeader ::
        .estadoLine (.obj [("activeNodes", .arr (ids.map .str))]) ::
        .activeHeader ::
        (node_data.map fun n => .nodeMark (decide (n.1 ∈ ids)) n.1 n.2) ++
        (if (node_data.filter fun n => !decide (n.1 ∈ ids)).isEmpty then []
         else .warnHeader ::
           (node_data.filter fun n => !decide (n.1 ∈ ids)).map fun n =>
             .warnNode n.1 n.2) := by
  have htruthy : jtruthy (.arr (ids.map .str)) = true := by
    cases ids with
    | nil => exact absurd rfl hne
    | cons i l => rfl
  simp [activar_nodos, jget, jlookup, htruthy, activarActiveSection_str]

theorem activar_marks_and_warns_witness :
    activar_nodos [("1", "A"), ("3", "C")] false DEFAULT_SERVER_URL
        (.resp 200 "ok" (some (.obj [("activeNodes",
          .arr (["1", "2"].map .str))]))) =
      .sending (DEFAULT_SERVER_URL ++ "/activate") ::
        .payload [("1", "A"), ("3", "C")] false ::
        .activatedHeader ::
        .estadoLine (.obj [("activeNodes", .arr (["1", "2"].map .str))]) ::
        .activeHeader ::
        (([("1", "A"), ("3", "C")] : List (String × String)).map fun n =>
          .nodeMark (decide (n.1 ∈ (["1", "2"] : List String))) n.1 n.2) ++
        (if (([("1", "A"), ("3", "C")] : List (String × String)).filter fun n =>
            !decide (n.1 ∈ (["1", "2"] : List String))).isEmpty then []
         else .warnHeader ::
           (([("1", "A"), ("3", "C")] : List (String × String)).filter fun n =>
             !decide (n.1 ∈ (["1", "2"] : List String))).map fun n =>
               .warnNode n.1 n.2) :=
  activar_marks_and_warns [("1", "A"), ("3", "C")] ["1", "2"] false
    DEFAULT_SERVER_URL "ok" (by decide)

end BrainControl
